import Mathlib

/-!
# Verification of the trivia-bot core against its specification

Shallow embedding of the trivia bot's core logic:
* Python strings are modelled as lists of character codes (`PyStr`), with
  `str.strip` / `str.lower` modelled over the ASCII range (`pyStrip`, `pyLower`).
* The database trivia handlers (`src/db/trivia_handlers.py`), the session
  manager (`src/trivia/manager.py`), the IRC client command handlers and
  pending-question machinery (`src/twitch/irc_client.py`), the orchestrator
  (`src/twitch/trivia_orchestrator.py`), the statistics updates and rank query
  (`src/db/channel_users.py`) and the rate limiter
  (`src/twitch/rate_limiter.py`) are translated to pure Lean functions.
* Database / network calls are modelled as explicit inputs of type
  `Except Unit (Option Question)`: `.error` is a raised provider exception,
  `.ok none` is "no row", `.ok (some q)` is a fetched question row.
* Wall-clock instants (rate limiter) are modelled as rationals.
-/

namespace TwitchBot

/-! ## Python string primitives (ASCII model)

A Python `str` is modelled as a `List Nat` of character codes.  `str.strip()`
with no argument removes the ASCII whitespace characters from both ends;
`str.lower()` maps `A`..`Z` (codes 65..90) to `a`..`z` (codes 97..122).
-/

/-- A Python string, as its list of character codes. -/
abbrev PyStr := List Nat

/-- Embed a Lean string literal as a `PyStr` (list of code points). -/
def lit (s : String) : PyStr := s.data.map Char.toNat

/-- The characters removed by Python `str.strip()`: space, tab, newline,
carriage return, vertical tab, form feed. -/
def isPySpace (c : Nat) : Bool :=
  c = 32 || c = 9 || c = 10 || c = 13 || c = 11 || c = 12

/-- `str.lower` on one character (ASCII model). -/
def pyCharLower (c : Nat) : Nat := if 65 ≤ c ∧ c ≤ 90 then c + 32 else c

/-- Python `s.lower()`. -/
def pyLower (s : PyStr) : PyStr := s.map pyCharLower

/-- Python `s.strip()`: drop whitespace from both ends. -/
def pyStrip (s : PyStr) : PyStr :=
  (((s.dropWhile isPySpace).reverse).dropWhile isPySpace).reverse

/-- Python `s.strip().lower()`, the normal form used by every answer check. -/
def pyNorm (s : PyStr) : PyStr := pyLower (pyStrip s)

theorem pyCharLower_idem (c : Nat) : pyCharLower (pyCharLower c) = pyCharLower c := by
  unfold pyCharLower
  split <;> rename_i h
  · rw [if_neg (by omega)]
  · rfl

theorem isPySpace_pyCharLower (c : Nat) : isPySpace (pyCharLower c) = isPySpace c := by
  unfold pyCharLower isPySpace
  split <;> rename_i h
  · have h32 : c + 32 ≠ 32 ∧ c + 32 ≠ 9 ∧ c + 32 ≠ 10 ∧ c + 32 ≠ 13 ∧ c + 32 ≠ 11 ∧ c + 32 ≠ 12 := by omega
    have hc : c ≠ 32 ∧ c ≠ 9 ∧ c ≠ 10 ∧ c ≠ 13 ∧ c ≠ 11 ∧ c ≠ 12 := by omega
    simp [h32.1, h32.2.1, h32.2.2.1, h32.2.2.2.1, h32.2.2.2.2.1, h32.2.2.2.2.2,
      hc.1, hc.2.1, hc.2.2.1, hc.2.2.2.1, hc.2.2.2.2.1, hc.2.2.2.2.2]
  · rfl

theorem dropWhile_idem (p : Nat → Bool) (l : PyStr) :
    (l.dropWhile p).dropWhile p = l.dropWhile p := by
  induction l with
  | nil => rfl
  | cons c t ih =>
    by_cases h : p c
    · simp [List.dropWhile, h, ih]
    · simp [List.dropWhile, h]

theorem dropWhile_head_false (p : Nat → Bool) (l : PyStr) (c : Nat) (t : PyStr)
    (h : l.dropWhile p = c :: t) : p c = false := by
  induction l with
  | nil => simp [List.dropWhile] at h
  | cons a b ih =>
    by_cases ha : p a
    · simp [List.dropWhile, ha] at h
      exact ih h
    · simp [List.dropWhile, ha] at h
      rw [← h.1]
      exact Bool.of_not_eq_true ha

theorem dropWhile_of_head_false (p : Nat → Bool) (c : Nat) (t : PyStr)
    (h : p c = false) : (c :: t).dropWhile p = c :: t := by
  simp [List.dropWhile, h]

/-- `pyStrip` leaves a left-stripped list: after a strip, leading whitespace is gone. -/
theorem pyStrip_is_prefix_stripped (l : PyStr) :
    ∃ t, l.dropWhile isPySpace = pyStrip l ++ t := by
  unfold pyStrip
  set m := l.dropWhile isPySpace with hm
  refine ⟨((m.reverse).takeWhile isPySpace).reverse, ?_⟩
  have h := List.takeWhile_append_dropWhile (p := isPySpace) (l := m.reverse)
  calc m = m.reverse.reverse := by rw [List.reverse_reverse]
    _ = ((m.reverse.takeWhile isPySpace) ++ (m.reverse.dropWhile isPySpace)).reverse := by rw [h]
    _ = (m.reverse.dropWhile isPySpace).reverse ++ (m.reverse.takeWhile isPySpace).reverse := by
        rw [List.reverse_append]

theorem pyStrip_idem (l : PyStr) : pyStrip (pyStrip l) = pyStrip l := by
  -- first: `pyStrip l` is already left-stripped
  have hleft : (pyStrip l).dropWhile isPySpace = pyStrip l := by
    obtain ⟨t, ht⟩ := pyStrip_is_prefix_stripped l
    cases hs : pyStrip l with
    | nil => simp [List.dropWhile]
    | cons c u =>
      have hcons : l.dropWhile isPySpace = c :: (u ++ t) := by
        rw [ht, hs]; simp
      have hcf : isPySpace c = false := dropWhile_head_false _ _ _ _ hcons
      exact dropWhile_of_head_false _ _ _ hcf
  -- then the right strip of an already right-stripped list is the identity
  have hstep : pyStrip (pyStrip l) = ((pyStrip l).reverse.dropWhile isPySpace).reverse := by
    show (((pyStrip l).dropWhile isPySpace).reverse.dropWhile isPySpace).reverse = _
    rw [hleft]
  rw [hstep]
  have hrev : (pyStrip l).reverse = ((l.dropWhile isPySpace).reverse).dropWhile isPySpace := by
    unfold pyStrip
    rw [List.reverse_reverse]
  have h2 : (pyStrip l).reverse.dropWhile isPySpace = (pyStrip l).reverse := by
    rw [hrev, dropWhile_idem]
  rw [h2, List.reverse_reverse]

theorem dropWhile_map_lower (l : PyStr) :
    (l.map pyCharLower).dropWhile isPySpace = (l.dropWhile isPySpace).map pyCharLower := by
  induction l with
  | nil => rfl
  | cons c t ih =>
    by_cases h : isPySpace c
    · have h' : isPySpace (pyCharLower c) = true := by rw [isPySpace_pyCharLower]; exact h
      simp [List.dropWhile, h, h', ih]
    · have hf : isPySpace c = false := Bool.of_not_eq_true h
      have h' : isPySpace (pyCharLower c) = false := by rw [isPySpace_pyCharLower]; exact hf
      simp [List.dropWhile, hf, h']

theorem pyStrip_pyLower (l : PyStr) : pyStrip (pyLower l) = pyLower (pyStrip l) := by
  unfold pyStrip pyLower
  rw [dropWhile_map_lower, ← List.map_reverse, dropWhile_map_lower, ← List.map_reverse]

theorem pyLower_idem (l : PyStr) : pyLower (pyLower l) = pyLower l := by
  unfold pyLower
  rw [List.map_map]
  exact List.map_congr_left fun c _ => pyCharLower_idem c

/-- Normalising twice is the same as normalising once: the verdict-relevant
form of `a.strip().lower()` is a fixpoint of strip-then-lower. -/
theorem pyNorm_idem (l : PyStr) : pyNorm (pyNorm l) = pyNorm l := by
  unfold pyNorm
  rw [pyStrip_pyLower, pyStrip_idem, pyLower_idem]

/-! ## Trivia data model

`Question` mirrors the question dict built from a database row in
`src/db/trivia_handlers.py` (only the fields the handlers read are kept:
`question`, `question_type`, `correct_answer`, `answer_options`).
`HandlerState` is the mutable state of a `DatabaseTriviaHandler`
(`self._current_question`, `self._active`).
-/

/-- `question_type` values stored in the database. -/
inductive QType where
  | multiple_choice
  | true_false
  | open_ended
deriving DecidableEq, Repr

/-- A question row, as the dict built by the database handlers. -/
structure Question where
  question : PyStr
  question_type : QType
  correct_answer : PyStr
  /-- `answer_options` is NULL (`none`) for non-MCQ rows. -/
  answer_options : Option (List PyStr)
deriving DecidableEq, Repr

/-- Mutable state of a `DatabaseTriviaHandler`. -/
structure HandlerState where
  current_question : Option Question
  active : Bool
deriving DecidableEq, Repr

/-- Result of a `check_answer` call.  The source returns only the message and
mutates `self`; the internally computed `is_correct` flag (which the
`TriviaBase` contract declares as the first component of a returned pair) is
exposed explicitly.  On the "no active trivia" early return the source
computes no flag; it is modelled as `false`. -/
structure CheckOutcome where
  is_correct : Bool
  message : PyStr
  state : HandlerState
deriving DecidableEq, Repr

/-! ## DatabaseTriviaHandler answer checks (`src/db/trivia_handlers.py`) -/

/-- `DatabaseTriviaHandler._check_mcq_answer`: letter shortcuts `a`..`d`
(codes 97..100) index into the options; anything else — including an
out-of-range letter — falls through to literal comparison.
A `multiple_choice` row with NULL options would make the Python
`len(options)` raise; options are modelled as `[]` in that case, under which
every letter index is out of range, matching the fall-through. -/
def check_mcq_answer (user_answer : PyStr) (q : Question) : Bool :=
  let correct := pyLower (pyStrip q.correct_answer)
  let user_input := pyLower (pyStrip user_answer)
  if user_input.length = 1 ∧
      (user_input = lit "a" ∨ user_input = lit "b" ∨ user_input = lit "c" ∨ user_input = lit "d") then
    let options := q.answer_options.getD []
    let letter_index := user_input.headD 0 - 97
    if h : letter_index < options.length then
      decide (pyLower (pyStrip (options.get ⟨letter_index, h⟩)) = correct)
    else
      decide (user_input = correct)
  else
    decide (user_input = correct)

/-- The `is_correct` computation inside `GeneralTriviaHandler.check_answer`,
branching on `question_type`. -/
def general_is_correct (q : Question) (answer : PyStr) : Bool :=
  match q.question_type with
  | .multiple_choice => check_mcq_answer answer q
  | .true_false =>
      decide ((pyNorm answer = lit "true" ∨ pyNorm answer = lit "false") ∧
        pyNorm answer = pyLower q.correct_answer)
  | .open_ended => decide (pyNorm answer = pyNorm q.correct_answer)

/-- The `@user` / `You` message prefix. -/
def userTag (username : Option PyStr) : PyStr :=
  match username with
  | some u => lit "@" ++ u
  | none => lit "You"

/-- The success response of `check_answer`. -/
def winMsg (username : Option PyStr) (q : Question) : PyStr :=
  lit "🎉 " ++ userTag username ++ lit " got it correct! " ++ q.correct_answer ++
    lit " is the right answer!"

/-- The miss response of `check_answer`. -/
def missMsg (username : Option PyStr) : PyStr :=
  lit "❌ " ++ userTag username ++ lit " - That's not correct. Try again!"

/-- The handlers' own "no active trivia" early return. -/
def noActiveHandlerMsg : PyStr := lit "❌ No active trivia."

/-- `GeneralTriviaHandler.check_answer`.  On a correct answer `self._active`
is set to `False`; otherwise the state is untouched. -/
def general_check_answer (h : HandlerState) (answer : PyStr) (username : Option PyStr) :
    CheckOutcome :=
  match h.active, h.current_question with
  | true, some q =>
      if general_is_correct q answer then
        ⟨true, winMsg username q, { h with active := false }⟩
      else
        ⟨false, missMsg username, h⟩
  | _, _ => ⟨false, noActiveHandlerMsg, h⟩

/-- `SmiteTriviaHandler.check_answer`: case-insensitive trim-equality. -/
def smite_check_answer (h : HandlerState) (answer : PyStr) (username : Option PyStr) :
    CheckOutcome :=
  match h.active, h.current_question with
  | true, some q =>
      if pyNorm answer = pyNorm q.correct_answer then
        ⟨true, winMsg username q, { h with active := false }⟩
      else
        ⟨false, missMsg username, h⟩
  | _, _ => ⟨false, noActiveHandlerMsg, h⟩

/-! ## Handler start / end (`src/db/trivia_handlers.py`)

The random database fetch is an explicit input `db : Except Unit (Option
Question)`: `.error ()` models a raised network/database exception, `.ok none`
an empty result set, `.ok (some q)` the fetched row. -/

/-- `DatabaseTriviaHandler._format_mcq_question`: at most four options with
flag emojis, then a final `strip()`. -/
def format_mcq_question (q : Question) : PyStr :=
  match q.answer_options with
  | none => q.question
  | some options =>
      if options.isEmpty then q.question
      else
        let emojis : List PyStr := [lit "🇦", lit "🇧", lit "🇨", lit "🇩"]
        let block := ((options.take 4).zip emojis).foldl
          (fun acc p => acc ++ p.2 ++ lit " " ++ p.1 ++ lit " ") []
        pyStrip (lit "📚 " ++ q.question ++ lit "\n" ++ block)

/-- The prompt `GeneralTriviaHandler.start` returns for a fetched question. -/
def general_question_prompt (q : Question) : PyStr :=
  match q.question_type with
  | .multiple_choice => format_mcq_question q
  | .true_false => lit "📚 " ++ q.question ++ lit " (True/False)"
  | .open_ended => lit "📚 " ++ q.question

/-- The "already active" conflict message (manager and handlers build the
same text from the current question dict). -/
def alreadyActiveMsg (oq : Option Question) : PyStr :=
  lit "⚠️ Trivia already active: " ++
    (match oq with
     | some q => q.question
     | none => lit "unknown question")

/-- `GeneralTriviaHandler.start`.  When already active and not forced it
returns the conflict message without touching state or the database.  On an
empty fetch the old `_current_question` is kept (the early return happens
before the assignment); on an exception nothing is assigned. -/
def general_start (h : HandlerState) (db : Except Unit (Option Question)) (force : Bool) :
    Except Unit (PyStr × HandlerState) :=
  if h.active ∧ ¬ force then
    .ok (alreadyActiveMsg h.current_question, h)
  else
    match db with
    | .error e => .error e
    | .ok none => .ok (lit "❌ No general questions available. Try loading questions first.", h)
    | .ok (some q) =>
        .ok (general_question_prompt q, { current_question := some q, active := true })

/-- `SmiteTriviaHandler.start`.  Unlike the general handler, the fetch result
is assigned to `self._current_question` before the emptiness check, so an
empty fetch clears the stored question. -/
def smite_start (h : HandlerState) (db : Except Unit (Option Question)) (force : Bool) :
    Except Unit (PyStr × HandlerState) :=
  if h.active ∧ ¬ force then
    .ok (alreadyActiveMsg h.current_question, h)
  else
    match db with
    | .error e => .error e
    | .ok none =>
        .ok (lit "❌ No Smite questions available. Try loading questions first.",
             { h with current_question := none })
    | .ok (some q) =>
        .ok (lit "🎯 SMITE TRIVIA! " ++ q.question ++ lit " Type !answer GodName to answer!",
             { current_question := some q, active := true })

/-- `GeneralTriviaHandler.end` / `SmiteTriviaHandler.end` (identical bodies):
reveal the answer and clear the state; with no stored question, refuse. -/
def handler_end (h : HandlerState) : PyStr × HandlerState :=
  match h.current_question with
  | none => (lit "❌ No active trivia to end.", h)
  | some q =>
      (lit "Trivia ended! The correct answer was: " ++ q.correct_answer,
       { current_question := none, active := false })

/-! ## TriviaManager (`src/trivia/manager.py`)

`active_handler` holds the (mutable) state of the handler object the manager
points at — specialised here to the database `GeneralTriviaHandler`, the
handler the claims cite.  `last_answer_correct` is `self._last_answer_correct`.
-/

/-- `TriviaManager` state. -/
structure ManagerState where
  active_handler : Option HandlerState
  last_answer_correct : Bool
deriving DecidableEq, Repr

/-- `self.active_handler and self.active_handler.is_active()`. -/
def manager_is_active (m : ManagerState) : Bool :=
  match m.active_handler with
  | some h => h.active
  | none => false

/-- The manager's "no active trivia" response. -/
def noActiveManagerMsg : PyStr := lit "❌ No active trivia to answer."

/-- `TriviaManager.submit_answer`.  When no handler is set or the handler is
inactive it returns the "no active trivia" message untouched.  Past that
guard the source executes `is_correct, message = await
self.active_handler.check_answer(answer, username, user_id, channel_id,
session_id)` — five arguments — but every `check_answer` implementation in
the repository (e.g. `GeneralTriviaHandler.check_answer`) is a synchronous
two-parameter method returning a bare string, so the call raises `TypeError`
before any handler code runs: modelled as `.error ()` with the manager and
handler state unchanged (`_last_answer_correct` is never assigned). -/
def submit_answer (m : ManagerState) (answer : PyStr) (username : Option PyStr) :
    Except Unit PyStr × ManagerState :=
  match m.active_handler with
  | none => (.ok noActiveManagerMsg, m)
  | some h =>
      if h.active then
        (.error (), m)
      else
        (.ok noActiveManagerMsg, m)

/-- `TriviaManager.start_trivia`.  The manager assigns `self.active_handler`
and clears `self._last_answer_correct` *before* invoking `handler.start()`;
if `start` raises, those assignments persist while the exception propagates
(first component `.error ()`).  No try/except exists at this layer. -/
def start_trivia (m : ManagerState) (handler : HandlerState)
    (db : Except Unit (Option Question)) (force : Bool) :
    Except Unit PyStr × ManagerState :=
  if manager_is_active m ∧ ¬ force then
    (.ok (alreadyActiveMsg (match m.active_handler with
      | some h => h.current_question
      | none => none)), m)
  else
    match general_start handler db force with
    | .error e => (.error e, ⟨some handler, false⟩)
    | .ok (msg, h') => (.ok msg, ⟨some h', false⟩)

/-- `TriviaManager.end_trivia`: delegates to `handler.end()` (revealing the
answer), then drops the handler reference.  `_last_answer_correct` is *not*
reset. -/
def end_trivia (m : ManagerState) : PyStr × ManagerState :=
  match m.active_handler with
  | none => (lit "❌ No active trivia session to end.", m)
  | some h =>
      if h.active then
        ((handler_end h).1, ⟨none, m.last_answer_correct⟩)
      else
        (lit "❌ No active trivia session to end.", m)

/-! ## IRC client command handlers and pending-question machinery
(`src/twitch/irc_client.py`, `src/twitch/trivia_orchestrator.py`) -/

/-- The two question sources. -/
inductive TriviaType where
  | general
  | smite
deriving DecidableEq, Repr

/-- The pending-load token values stored in `self._pending_auto_question`
("smite", "smite_single", "general", "general_single"). -/
inductive PendingTok where
  | smite
  | smite_single
  | general
  | general_single
deriving DecidableEq, Repr

/-- The IRC client state relevant to trivia: the two handler objects
(`none` while the database failed to initialise), the manager, the auto-mode
flags and the single pending-load slot. -/
structure ClientState where
  general_handler : Option HandlerState
  smite_handler : Option HandlerState
  manager : ManagerState
  auto_trivia : Bool
  auto_trivia_type : Option TriviaType
  pending_auto_question : Option PendingTok
deriving DecidableEq, Repr

/-- `IRCClient._set_active_handler`: point the manager at `handler` and clear
`_last_answer_correct`, unless a session is active and `force` is false. -/
def set_active_handler (m : ManagerState) (handler : HandlerState) (force : Bool) :
    ManagerState :=
  if manager_is_active m ∧ ¬ force then m
  else ⟨some handler, false⟩

/-- The error message sent when a pending question load raises. -/
def loadFailMsg : PyStr := lit "❌ Failed to load trivia question. Please try again."

/-- `IRCClient._handle_pending_trivia_question`.  The pending token is
cleared up front; the handler's `start` runs inside try/except — on an
exception only `loadFailMsg` is sent and neither handler nor manager state
changes.  Returns the new client state and the messages sent. -/
def handle_pending_trivia_question (c : ClientState)
    (dbG dbS : Except Unit (Option Question)) : ClientState × List PyStr :=
  match c.pending_auto_question with
  | none => (c, [])
  | some pt =>
      let c0 := { c with pending_auto_question := none }
      match pt with
      | .smite =>
          match c0.smite_handler with
          | none => (c0, [])
          | some h =>
              match smite_start h dbS true with
              | .error _ => (c0, [loadFailMsg])
              | .ok (msg, h') =>
                  ({ c0 with smite_handler := some h',
                             manager := set_active_handler c0.manager h' true }, [msg])
      | .smite_single =>
          match c0.smite_handler with
          | none => (c0, [])
          | some h =>
              match smite_start h dbS false with
              | .error _ => (c0, [loadFailMsg])
              | .ok (msg, h') =>
                  ({ c0 with smite_handler := some h',
                             manager := set_active_handler c0.manager h' false }, [msg])
      | .general =>
          match c0.general_handler with
          | none => (c0, [])
          | some h =>
              match general_start h dbG true with
              | .error _ => (c0, [loadFailMsg])
              | .ok (msg, h') =>
                  ({ c0 with general_handler := some h',
                             manager := set_active_handler c0.manager h' true }, [msg])
      | .general_single =>
          match c0.general_handler with
          | none => (c0, [])
          | some h =>
              match general_start h dbG false with
              | .error _ => (c0, [loadFailMsg])
              | .ok (msg, h') =>
                  ({ c0 with general_handler := some h',
                             manager := set_active_handler c0.manager h' false }, [msg])

/-- `IRCClient._cmd_giveup`: end the current question through the manager,
then (in auto mode) queue the next question token. -/
def cmd_giveup (c : ClientState) : PyStr × ClientState :=
  let r := end_trivia c.manager
  let c1 := { c with manager := r.2 }
  if c1.auto_trivia then
    if c1.auto_trivia_type = some .smite then
      (r.1, { c1 with pending_auto_question := some .smite })
    else
      (r.1, { c1 with pending_auto_question := some .general })
  else
    (r.1, { c1 with auto_trivia := false, auto_trivia_type := none })

/-- `IRCClient._cmd_end_trivia`: clears the auto-mode flags only; the manager
and any active question are untouched and no answer is revealed. -/
def cmd_end_trivia (c : ClientState) : PyStr × ClientState :=
  (lit "🛑 Auto trivia ended!", { c with auto_trivia := false, auto_trivia_type := none })

/-- `TriviaOrchestrator` state (`src/twitch/trivia_orchestrator.py`): the
auto-mode flags, the single pending-load slot, and whether each handler has
been injected. -/
structure OrchState where
  auto_trivia : Bool
  auto_trivia_type : Option TriviaType
  pending_auto_question : Option PendingTok
  has_general : Bool
  has_smite : Bool
deriving DecidableEq, Repr

/-- `TriviaOrchestrator.start_single_trivia`.  `ttype` is the command's
trivia-type string: `some .general` / `some .smite`, or `none` for any other
string.  The pending slot is overwritten unconditionally. -/
def start_single_trivia (o : OrchState) (ttype : Option TriviaType) : PyStr × OrchState :=
  match ttype with
  | some .smite =>
      if o.has_smite then
        (lit "🎯 Loading Smite trivia question...",
         { o with auto_trivia := false, auto_trivia_type := none,
                  pending_auto_question := some .smite_single })
      else
        (lit "❌ Smite trivia not available. Please try again.", o)
  | some .general =>
      if o.has_general then
        (lit "📚 Loading general trivia question...",
         { o with auto_trivia := false, auto_trivia_type := none,
                  pending_auto_question := some .general_single })
      else
        (lit "❌ General trivia not available. Please try again.", o)
  | none => (lit "❌ Invalid trivia type. Use 'general' or 'smite'.", o)

/-! ## Statistics engine (`src/db/channel_users.py`) -/

/-- The counter columns of one `channel_users` row. -/
structure UserStats where
  total_questions : Nat
  correct_answers : Nat
  streak : Nat
  best_streak : Nat
deriving DecidableEq, Repr

/-- `update_user_stats`: the single atomic SQL UPDATE per attempt.  All
right-hand sides read the pre-update values, so `GREATEST(best_streak,
streak + 1)` uses the old streak. -/
def update_user_stats (r : UserStats) (is_correct : Bool) : UserStats :=
  if is_correct then
    { total_questions := r.total_questions + 1,
      correct_answers := r.correct_answers + 1,
      streak := r.streak + 1,
      best_streak := max r.best_streak (r.streak + 1) }
  else
    { r with total_questions := r.total_questions + 1, streak := 0 }

/-- One `channel_users` row as seen by the rank query (a single channel's
rows; `user_id` is unique per row). -/
structure ChannelUserRow where
  user_id : Nat
  total_questions : Nat
  correct_answers : Nat
deriving DecidableEq, Repr

/-- `correct_answers::float / total_questions::float`, modelled exactly over
the rationals (the query only compares these values). -/
def accuracy (r : ChannelUserRow) : ℚ :=
  (r.correct_answers : ℚ) / (r.total_questions : ℚ)

/-- The strict "sorts before" order of `ORDER BY correct_answers DESC,
accuracy DESC`.  Rows tied on both keys are *not* ordered: the SQL window
has no further tie-break. -/
def rank_before (a b : ChannelUserRow) : Bool :=
  decide (b.correct_answers < a.correct_answers ∨
    (a.correct_answers = b.correct_answers ∧ accuracy b < accuracy a))

/-- Stable insertion of a row into an already ranked list: the new row goes
after every existing row it does not strictly beat. -/
def rankInsert (x : ChannelUserRow) : List ChannelUserRow → List ChannelUserRow
  | [] => [x]
  | y :: l => if rank_before y x then y :: rankInsert x l else x :: y :: l

/-- Stable sort by `rank_before`, keeping input (storage iteration) order
among tied rows.  The input order stands in for the unspecified order in
which the database delivers tied rows to `ROW_NUMBER`. -/
def rankSort : List ChannelUserRow → List ChannelUserRow
  | [] => []
  | x :: l => rankInsert x (rankSort l)

/-- The rows admitted to the ranking: `WHERE total_questions > 0`. -/
def eligibleRows (rows : List ChannelUserRow) : List ChannelUserRow :=
  rows.filter (fun r => 0 < r.total_questions)

/-- `SELECT rank FROM ranked_users WHERE user_id = $2`: the 1-based position
of the first row with the given `user_id` in the ranked list. -/
def findUserRank (uid : Nat) : List ChannelUserRow → Option Nat
  | [] => none
  | r :: rest =>
      if r.user_id = uid then some 1 else (findUserRank uid rest).map (· + 1)

/-- `get_channel_user_rank`: 1-based `ROW_NUMBER` position of the user in the
ranked rows, `none` when the user has no row with `total_questions > 0`. -/
def get_channel_user_rank (rows : List ChannelUserRow) (uid : Nat) : Option Nat :=
  findUserRank uid (rankSort (eligibleRows rows))

/-! ## Rate limiter (`src/twitch/rate_limiter.py`)

Instants are rationals.  `wait_if_needed` returns the time slept together
with the pruned timestamp list; it has no failure outcome. -/

/-- `RateLimitSettings` (defaults `burst=18`, `window_seconds=30`). -/
structure RateLimitSettings where
  burst : Nat
  window_seconds : ℚ
deriving DecidableEq, Repr

/-- `RateLimiter.wait_if_needed` called at instant `now`: prune timestamps
older than `now - window_seconds`; if still at the burst limit, sleep until
the oldest remaining timestamp leaves the window. -/
def wait_if_needed (cfg : RateLimitSettings) (sent : List ℚ) (now : ℚ) : ℚ × List ℚ :=
  let window_start := now - cfg.window_seconds
  let pruned := sent.filter (fun t => window_start ≤ t)
  if cfg.burst ≤ pruned.length then
    let oldest := pruned.headD 0
    let sleep_time := oldest + cfg.window_seconds - now
    if 0 < sleep_time then (sleep_time, pruned) else (0, pruned)
  else
    (0, pruned)

/-! ## Claim theorems -/

/-- **C1, code bug**: the claimed first-correct-answer-wins resolution never
happens in the code as composed.  On every session with an Active question,
`TriviaManager.submit_answer` calls `check_answer` with five arguments while
every handler's `check_answer` is a synchronous two-parameter method
returning a bare string, so the dispatch raises `TypeError` (modelled
`.error ()`): no submission — correct or not — ever transitions the session
to Idle, returns a message, or touches `_last_answer_correct`, and the
session stays Active. -/
theorem submit_answer_raises_on_active (m : ManagerState) (h : HandlerState)
    (a : PyStr) (u : Option PyStr)
    (hm : m.active_handler = some h) (hact : h.active = true) :
    submit_answer m a u = (.error (), m) ∧
    manager_is_active (submit_answer m a u).2 = true := by
  obtain ⟨ah, lc⟩ := m
  simp only at hm
  subst hm
  simp [submit_answer, hact, manager_is_active]

/-- Witness for the C1 code-bug theorem: the correct answer "Paris"
submitted by alice against an Active question still raises and leaves the
session Active. -/
theorem submit_answer_raises_on_active_witness :
    submit_answer
        ⟨some ⟨some ⟨lit "Capital of France?", .open_ended, lit "Paris", none⟩, true⟩, false⟩
        (lit "Paris") (some (lit "alice")) =
      (.error (),
       ⟨some ⟨some ⟨lit "Capital of France?", .open_ended, lit "Paris", none⟩, true⟩, false⟩) ∧
    manager_is_active (submit_answer
        ⟨some ⟨some ⟨lit "Capital of France?", .open_ended, lit "Paris", none⟩, true⟩, false⟩
        (lit "Paris") (some (lit "alice"))).2 = true :=
  submit_answer_raises_on_active
    ⟨some ⟨some ⟨lit "Capital of France?", .open_ended, lit "Paris", none⟩, true⟩, false⟩
    ⟨some ⟨lit "Capital of France?", .open_ended, lit "Paris", none⟩, true⟩
    (lit "Paris") (some (lit "alice")) rfl rfl

/-- **C2**: starting from a row with `bestStreak ≥ currentStreak ≥ 0`,
`update_user_stats` preserves `bestStreak ≥ currentStreak` for either value
of `is_correct`; a correct answer sets the streak to `streak + 1` and the
best streak to `max bestStreak (streak + 1)`, an incorrect answer zeroes the
streak and leaves the best streak unchanged.  (Counters are naturals, so
`≥ 0` holds by type.) -/
theorem update_user_stats_streak_invariant (r : UserStats) (b : Bool)
    (h : r.streak ≤ r.best_streak) :
    (update_user_stats r b).streak ≤ (update_user_stats r b).best_streak ∧
    (update_user_stats r true).streak = r.streak + 1 ∧
    (update_user_stats r true).best_streak = max r.best_streak (r.streak + 1) ∧
    (update_user_stats r false).streak = 0 ∧
    (update_user_stats r false).best_streak = r.best_streak := by
  cases b <;> simp [update_user_stats]

/-- Witness for C2 at a concrete row. -/
theorem update_user_stats_streak_invariant_witness :
    (update_user_stats ⟨5, 3, 1, 2⟩ true).streak ≤
      (update_user_stats ⟨5, 3, 1, 2⟩ true).best_streak ∧
    (update_user_stats ⟨5, 3, 1, 2⟩ true).streak = 1 + 1 ∧
    (update_user_stats ⟨5, 3, 1, 2⟩ true).best_streak = max 2 (1 + 1) ∧
    (update_user_stats ⟨5, 3, 1, 2⟩ false).streak = 0 ∧
    (update_user_stats ⟨5, 3, 1, 2⟩ false).best_streak = 2 :=
  update_user_stats_streak_invariant ⟨5, 3, 1, 2⟩ true (by decide)

/-- **C4**: with a question active, `start(force=false)` returns the
"already active" message embedding the current prompt and leaves the handler
state untouched, so two consecutive such calls (whatever the database would
have returned on each) produce the identical message and the original
state. -/
theorem start_conflict_idempotent (h : HandlerState) (q : Question)
    (db₁ db₂ : Except Unit (Option Question))
    (hact : h.active = true) (hq : h.current_question = some q) :
    general_start h db₁ false = .ok (lit "⚠️ Trivia already active: " ++ q.question, h) ∧
    general_start h db₂ false = .ok (lit "⚠️ Trivia already active: " ++ q.question, h) := by
  constructor <;>
    · unfold general_start
      rw [if_pos (by simp [hact])]
      simp [alreadyActiveMsg, hq]

/-- Witness for C4 at a concrete active handler state. -/
theorem start_conflict_idempotent_witness :
    general_start ⟨some ⟨lit "Q?", .open_ended, lit "A", none⟩, true⟩ (.ok none) false =
      .ok (lit "⚠️ Trivia already active: " ++ lit "Q?",
        ⟨some ⟨lit "Q?", .open_ended, lit "A", none⟩, true⟩) ∧
    general_start ⟨some ⟨lit "Q?", .open_ended, lit "A", none⟩, true⟩ (.error ()) false =
      .ok (lit "⚠️ Trivia already active: " ++ lit "Q?",
        ⟨some ⟨lit "Q?", .open_ended, lit "A", none⟩, true⟩) :=
  start_conflict_idempotent ⟨some ⟨lit "Q?", .open_ended, lit "A", none⟩, true⟩
    ⟨lit "Q?", .open_ended, lit "A", none⟩ (.ok none) (.error ()) rfl rfl

/-- **C7, counterexample**: a `!trivia` issued while a Smite load is pending
is *not* rejected with an "already loading" message — it returns the normal
loading acknowledgment and replaces the pending token. -/
theorem pending_token_replaced_counterexample :
    (start_single_trivia ⟨false, none, some .smite_single, true, true⟩
        (some .general)).2.pending_auto_question = some .general_single ∧
    some PendingTok.general_single ≠ some PendingTok.smite_single ∧
    (start_single_trivia ⟨false, none, some .smite_single, true, true⟩
        (some .general)).1 = lit "📚 Loading general trivia question..." :=
  ⟨rfl, by decide, rfl⟩

/-- **C7, amended**: the pending-load slot holds at most one token by
construction, but a `!trivia` while a load is pending is not rejected: for
*every* orchestrator state with the general handler configured, the command
returns the loading acknowledgment and overwrites the slot with a fresh
`general_single` token. -/
theorem start_single_overwrites_pending (o : OrchState) (hg : o.has_general = true) :
    start_single_trivia o (some .general) =
      (lit "📚 Loading general trivia question...",
       { o with auto_trivia := false, auto_trivia_type := none,
                pending_auto_question := some .general_single }) := by
  simp [start_single_trivia, hg]

/-- Witness for the amended C7 at a state with a pending Smite load. -/
theorem start_single_overwrites_pending_witness :
    start_single_trivia ⟨false, none, some .smite_single, true, true⟩ (some .general) =
      (lit "📚 Loading general trivia question...",
       ⟨false, none, some .general_single, true, true⟩) :=
  start_single_overwrites_pending ⟨false, none, some .smite_single, true, true⟩ rfl

/-- **C9, counterexample**: `!end trivia` is one of the giveup/end commands,
yet on an Active session it neither moves the session to Idle nor reveals
the answer — it only clears the auto-mode flags. -/
theorem end_trivia_command_counterexample :
    (cmd_end_trivia ⟨none, none,
        ⟨some ⟨some ⟨lit "Q?", .open_ended, lit "A", none⟩, true⟩, false⟩,
        true, some .general, none⟩).2.manager =
      ⟨some ⟨some ⟨lit "Q?", .open_ended, lit "A", none⟩, true⟩, false⟩ ∧
    manager_is_active (cmd_end_trivia ⟨none, none,
        ⟨some ⟨some ⟨lit "Q?", .open_ended, lit "A", none⟩, true⟩, false⟩,
        true, some .general, none⟩).2.manager = true ∧
    (cmd_end_trivia ⟨none, none,
        ⟨some ⟨some ⟨lit "Q?", .open_ended, lit "A", none⟩, true⟩, false⟩,
        true, some .general, none⟩).1 ≠
      lit "Trivia ended! The correct answer was: " ++ lit "A" :=
  ⟨rfl, rfl, by decide⟩

/-- **C9, amended**: only `!giveup` performs the forced termination: on an
Active session it reveals the correct answer and leaves the session Idle.
`lastResolutionCorrect` is not assigned by the termination; it is already
`false` in every reachable Active session and stays `false`.  `!end trivia`
leaves the manager (and the active question) untouched. -/
theorem giveup_terminates (c : ClientState) (h : HandlerState) (q : Question)
    (hm : c.manager = ⟨some h, false⟩) (hact : h.active = true)
    (hq : h.current_question = some q) :
    (cmd_giveup c).1 = lit "Trivia ended! The correct answer was: " ++ q.correct_answer ∧
    manager_is_active (cmd_giveup c).2.manager = false ∧
    (cmd_giveup c).2.manager.last_answer_correct = false ∧
    (cmd_end_trivia c).2.manager = c.manager := by
  have hend : end_trivia c.manager =
      (lit "Trivia ended! The correct answer was: " ++ q.correct_answer,
       ⟨none, false⟩) := by
    rw [hm]
    unfold end_trivia
    simp [hact, handler_end, hq]
  refine ⟨?_, ?_, ?_, rfl⟩ <;>
    · unfold cmd_giveup
      rw [hend]
      by_cases hauto : c.auto_trivia = true <;>
        by_cases hsm : c.auto_trivia_type = some TriviaType.smite <;>
          simp [hauto, hsm, manager_is_active]

/-- Witness for the amended C9 on a concrete Active session. -/
theorem giveup_terminates_witness :
    (cmd_giveup ⟨none, none,
        ⟨some ⟨some ⟨lit "Q?", .open_ended, lit "A", none⟩, true⟩, false⟩,
        false, none, none⟩).1 =
      lit "Trivia ended! The correct answer was: " ++ lit "A" ∧
    manager_is_active (cmd_giveup ⟨none, none,
        ⟨some ⟨some ⟨lit "Q?", .open_ended, lit "A", none⟩, true⟩, false⟩,
        false, none, none⟩).2.manager = false ∧
    (cmd_giveup ⟨none, none,
        ⟨some ⟨some ⟨lit "Q?", .open_ended, lit "A", none⟩, true⟩, false⟩,
        false, none, none⟩).2.manager.last_answer_correct = false ∧
    (cmd_end_trivia ⟨none, none,
        ⟨some ⟨some ⟨lit "Q?", .open_ended, lit "A", none⟩, true⟩, false⟩,
        false, none, none⟩).2.manager =
      (⟨none, none,
        ⟨some ⟨some ⟨lit "Q?", .open_ended, lit "A", none⟩, true⟩, false⟩,
        false, none, none⟩ : ClientState).manager :=
  giveup_terminates ⟨none, none,
      ⟨some ⟨some ⟨lit "Q?", .open_ended, lit "A", none⟩, true⟩, false⟩,
      false, none, none⟩
    ⟨some ⟨lit "Q?", .open_ended, lit "A", none⟩, true⟩
    ⟨lit "Q?", .open_ended, lit "A", none⟩ rfl rfl rfl

/-- **C3, counterexample**: a database error raised inside `handler.start()`
invoked through `TriviaManager.start_trivia` is *not* caught at the
session-manager layer and the manager is *not* left in its pre-call state:
the exception propagates while `active_handler` (previously `None`) now
points at the new handler and `_last_answer_correct` has been cleared. -/
theorem start_trivia_error_counterexample :
    (start_trivia ⟨none, true⟩ ⟨none, false⟩ (.error ()) false).1 = .error () ∧
    (start_trivia ⟨none, true⟩ ⟨none, false⟩ (.error ()) false).2 ≠ ⟨none, true⟩ ∧
    (start_trivia ⟨none, true⟩ ⟨none, false⟩ (.error ()) false).2 =
      ⟨some ⟨none, false⟩, false⟩ :=
  ⟨rfl, by decide, rfl⟩

/-- **C3, amended**: handler errors during `start` are caught one layer up,
in the IRC client's pending-question resolution: when the pending load's
database fetch raises, the user-visible "Failed to load trivia question"
message is sent and the handlers, the manager and the session state are all
exactly their pre-call state — only the pending token (cleared up front on
every resolution) is consumed.  Both handlers are assumed idle, as a raised
fetch presupposes the fetch was reached. -/
theorem handler_error_caught_at_client (c : ClientState) (pt : PendingTok)
    (g s : HandlerState)
    (hpend : c.pending_auto_question = some pt)
    (hg : c.general_handler = some g) (hs : c.smite_handler = some s)
    (hga : g.active = false) (hsa : s.active = false) :
    handle_pending_trivia_question c (.error ()) (.error ()) =
      ({ c with pending_auto_question := none }, [loadFailMsg]) := by
  unfold handle_pending_trivia_question
  rw [hpend]
  cases pt <;> simp [hg, hs, general_start, smite_start, hga, hsa]

/-- Witness for the amended C3: a pending single general question whose
fetch raises. -/
theorem handler_error_caught_at_client_witness :
    handle_pending_trivia_question
        ⟨some ⟨none, false⟩, some ⟨none, false⟩, ⟨none, false⟩,
          false, none, some .general_single⟩ (.error ()) (.error ()) =
      (⟨some ⟨none, false⟩, some ⟨none, false⟩, ⟨none, false⟩, false, none, none⟩,
       [loadFailMsg]) :=
  handler_error_caught_at_client
    ⟨some ⟨none, false⟩, some ⟨none, false⟩, ⟨none, false⟩,
      false, none, some .general_single⟩
    .general_single ⟨none, false⟩ ⟨none, false⟩ rfl rfl rfl rfl rfl

/-- A single lowercase letter is its own strip-lower normal form. -/
theorem pyNorm_lower_letter (c : Nat) (hlo : 97 ≤ c) (hhi : c ≤ 122) :
    pyLower (pyStrip [c]) = [c] := by
  have hsp : isPySpace c = false := by
    simp only [isPySpace]
    simp only [Bool.or_eq_false_iff, decide_eq_false_iff_not]
    omega
  have hlow : pyCharLower c = c := by
    unfold pyCharLower
    rw [if_neg (by omega)]
  simp [pyStrip, pyLower, List.dropWhile, hsp, hlow]

/-- **C5, counterexample**: with five options and correct answer `"Echo"`
(option position 4, letter `e`), submitting `"e"` is judged *incorrect*
while submitting `"Echo"` is judged correct — the letter shortcut covers
only `a`..`d`, not `a`..`z` as claimed. -/
theorem mcq_letter_range_counterexample :
    check_mcq_answer (lit "e")
      ⟨lit "Phonetic five?", .multiple_choice, lit "Echo",
        some [lit "Alpha", lit "Bravo", lit "Charlie", lit "Delta", lit "Echo"]⟩ = false ∧
    check_mcq_answer (lit "Echo")
      ⟨lit "Phonetic five?", .multiple_choice, lit "Echo",
        some [lit "Alpha", lit "Bravo", lit "Charlie", lit "Delta", lit "Echo"]⟩ = true := by
  constructor <;> decide

/-- **C5, amended**: the MCQ check accepts the literal option text or a
single-letter index for letters `a`..`d` only (codes 97..100): an in-range
letter compares the indexed option against the correct answer, an
out-of-range letter falls through to literal comparison; with options
`["Paris","Rome","Berlin"]` and correct answer `"Paris"`, submitting `"a"`
resolves identically to submitting `"Paris"`. -/
theorem mcq_letter_shortcut (q : Question) (opts : List PyStr) (c₁ c₂ : Nat)
    (hopts : q.answer_options = some opts)
    (h1lo : 97 ≤ c₁) (h1hi : c₁ ≤ 100) (hin : c₁ - 97 < opts.length)
    (h2lo : 97 ≤ c₂) (h2hi : c₂ ≤ 100) (hout : opts.length ≤ c₂ - 97) :
    check_mcq_answer [c₁] q =
      decide (pyLower (pyStrip (opts.get ⟨c₁ - 97, hin⟩)) =
        pyLower (pyStrip q.correct_answer)) ∧
    check_mcq_answer [c₂] q =
      decide (([c₂] : PyStr) = pyLower (pyStrip q.correct_answer)) ∧
    check_mcq_answer (lit "a")
        ⟨lit "Capital?", .multiple_choice, lit "Paris",
          some [lit "Paris", lit "Rome", lit "Berlin"]⟩ =
      check_mcq_answer (lit "Paris")
        ⟨lit "Capital?", .multiple_choice, lit "Paris",
          some [lit "Paris", lit "Rome", lit "Berlin"]⟩ ∧
    check_mcq_answer (lit "a")
        ⟨lit "Capital?", .multiple_choice, lit "Paris",
          some [lit "Paris", lit "Rome", lit "Berlin"]⟩ = true := by
  refine ⟨?_, ?_, by decide, by decide⟩
  · unfold check_mcq_answer
    rw [pyNorm_lower_letter c₁ h1lo (by omega)]
    rw [if_pos ⟨rfl, by interval_cases c₁ <;> simp [lit]⟩]
    rw [hopts]
    simp only [Option.getD_some, List.headD_cons]
    rw [dif_pos hin]
  · unfold check_mcq_answer
    rw [pyNorm_lower_letter c₂ h2lo (by omega)]
    rw [if_pos ⟨rfl, by interval_cases c₂ <;> simp [lit]⟩]
    rw [hopts]
    simp only [Option.getD_some, List.headD_cons]
    rw [dif_neg (by omega)]

/-- Witness for the amended C5: `a` in range, `d` out of range, on the
Paris question. -/
theorem mcq_letter_shortcut_witness :
    check_mcq_answer [97]
      ⟨lit "Capital?", .multiple_choice, lit "Paris",
        some [lit "Paris", lit "Rome", lit "Berlin"]⟩ =
      decide (pyLower (pyStrip (([lit "Paris", lit "Rome", lit "Berlin"] :
          List PyStr).get ⟨97 - 97, by decide⟩)) =
        pyLower (pyStrip (lit "Paris"))) ∧
    check_mcq_answer [100]
      ⟨lit "Capital?", .multiple_choice, lit "Paris",
        some [lit "Paris", lit "Rome", lit "Berlin"]⟩ =
      decide (([100] : PyStr) = pyLower (pyStrip (lit "Paris"))) ∧
    check_mcq_answer (lit "a")
        ⟨lit "Capital?", .multiple_choice, lit "Paris",
          some [lit "Paris", lit "Rome", lit "Berlin"]⟩ =
      check_mcq_answer (lit "Paris")
        ⟨lit "Capital?", .multiple_choice, lit "Paris",
          some [lit "Paris", lit "Rome", lit "Berlin"]⟩ ∧
    check_mcq_answer (lit "a")
        ⟨lit "Capital?", .multiple_choice, lit "Paris",
          some [lit "Paris", lit "Rome", lit "Berlin"]⟩ = true :=
  mcq_letter_shortcut
    ⟨lit "Capital?", .multiple_choice, lit "Paris",
      some [lit "Paris", lit "Rome", lit "Berlin"]⟩
    [lit "Paris", lit "Rome", lit "Berlin"] 97 100 rfl
    (by decide) (by decide) (by decide) (by decide) (by decide) (by decide)

theorem check_mcq_answer_norm (a : PyStr) (q : Question) :
    check_mcq_answer (pyLower (pyStrip a)) q = check_mcq_answer a q := by
  unfold check_mcq_answer
  rw [show pyLower (pyStrip (pyLower (pyStrip a))) = pyLower (pyStrip a) from pyNorm_idem a]

theorem general_is_correct_norm (q : Question) (a : PyStr) :
    general_is_correct q (pyLower (pyStrip a)) = general_is_correct q a := by
  obtain ⟨qq, qt, ca, ao⟩ := q
  cases qt with
  | multiple_choice => exact check_mcq_answer_norm a _
  | true_false =>
      unfold general_is_correct
      rw [show pyNorm (pyLower (pyStrip a)) = pyNorm a from pyNorm_idem a]
  | open_ended =>
      unfold general_is_correct
      rw [show pyNorm (pyLower (pyStrip a)) = pyNorm a from pyNorm_idem a]

/-- **C10**: for every handler state (hence every active question of any
type) and any submitted answer, the general and Smite `check_answer`s return
the same verdict, the same response text and the same post-state for the
answer and for its trimmed, lowercased form — surrounding whitespace and
letter case are interchangeable for all question kinds, not only the
exact-match and boolean ones. -/
theorem check_answer_normalization (h : HandlerState) (ans : PyStr) (u : Option PyStr) :
    general_check_answer h (pyLower (pyStrip ans)) u = general_check_answer h ans u ∧
    smite_check_answer h (pyLower (pyStrip ans)) u = smite_check_answer h ans u := by
  constructor
  · unfold general_check_answer
    simp only [general_is_correct_norm]
  · unfold smite_check_answer
    simp only [show pyNorm (pyLower (pyStrip ans)) = pyNorm ans from pyNorm_idem ans]

theorem filter_replicate_if {α : Type} (n : Nat) (a : α) (p : α → Bool) :
    (List.replicate n a).filter p = if p a then List.replicate n a else [] := by
  induction n with
  | zero => simp
  | succ k ih =>
      rw [List.replicate_succ, List.filter_cons]
      by_cases hp : p a
      · simp only [hp, if_true, ih, List.replicate_succ]
      · have hp' : p a = false := Bool.of_not_eq_true hp
        simp only [hp', Bool.false_eq_true, if_false, ih]

/-- **C8**: with `burst = 18`, `window_seconds = 30` and 18 messages all
recorded at instant `t0`, the reservation made before a 19th send at any
later instant `now` waits at least `30 - (now - t0)` and strictly less than
`30` seconds; and for every state and instant the computed wait is
non-negative — the reservation has no failure outcome, it only delays. -/
theorem rate_limiter_burst_wait (t0 now : ℚ) (h : t0 < now) (s : List ℚ) (n : ℚ) :
    30 - (now - t0) ≤ (wait_if_needed ⟨18, 30⟩ (List.replicate 18 t0) now).1 ∧
    (wait_if_needed ⟨18, 30⟩ (List.replicate 18 t0) now).1 < 30 ∧
    0 ≤ (wait_if_needed ⟨18, 30⟩ s n).1 := by
  have hnonneg : ∀ (l : List ℚ) (m : ℚ), 0 ≤ (wait_if_needed ⟨18, 30⟩ l m).1 := by
    intro l m
    unfold wait_if_needed
    dsimp only
    split
    · split <;> rename_i hs
      · exact le_of_lt hs
      · exact le_refl 0
    · exact le_refl 0
  have hval : (wait_if_needed ⟨18, 30⟩ (List.replicate 18 t0) now).1 =
      if now - 30 ≤ t0 then (if 0 < t0 + 30 - now then t0 + 30 - now else 0) else 0 := by
    simp only [wait_if_needed]
    rw [filter_replicate_if]
    by_cases hc : now - 30 ≤ t0
    · rw [decide_eq_true hc, if_pos rfl, if_pos hc, List.length_replicate,
        if_pos (by norm_num),
        show (List.replicate 18 t0).headD 0 = t0 from rfl]
      by_cases hp : 0 < t0 + 30 - now
      · rw [if_pos hp, if_pos hp]
      · rw [if_neg hp, if_neg hp]
    · rw [decide_eq_false hc, if_neg (by simp), if_neg hc]
  have hmain : 30 - (now - t0) ≤ (wait_if_needed ⟨18, 30⟩ (List.replicate 18 t0) now).1 ∧
      (wait_if_needed ⟨18, 30⟩ (List.replicate 18 t0) now).1 < 30 := by
    rw [hval]
    split_ifs with hc hp
    · constructor <;> linarith
    · constructor
      · linarith [not_lt.mp hp]
      · norm_num
    · constructor
      · linarith [not_le.mp hc]
      · norm_num
  exact ⟨hmain.1, hmain.2, hnonneg s n⟩

/-- Witness for C8: 18 sends at instant 0, the 19th attempted at instant 1,
plus a reservation on an empty window. -/
theorem rate_limiter_burst_wait_witness :
    30 - ((1 : ℚ) - 0) ≤ (wait_if_needed ⟨18, 30⟩ (List.replicate 18 (0 : ℚ)) 1).1 ∧
    (wait_if_needed ⟨18, 30⟩ (List.replicate 18 (0 : ℚ)) 1).1 < 30 ∧
    0 ≤ (wait_if_needed ⟨18, 30⟩ [] 5).1 :=
  rate_limiter_burst_wait 0 1 (by norm_num) [] 5

/-! ## Rank-query lemmas -/

theorem rank_before_asymm (x y : ChannelUserRow) (h : rank_before x y = true) :
    rank_before y x = false := by
  unfold rank_before at *
  rw [decide_eq_true_eq] at h
  rw [decide_eq_false_iff_not]
  rcases h with h1 | ⟨h1, h2⟩
  · rintro (h3 | ⟨h3, h4⟩) <;> omega
  · rintro (h3 | ⟨h3, h4⟩)
    · omega
    · linarith

theorem rank_before_trans_neg (x y z : ChannelUserRow)
    (h1 : rank_before z y = false) (h2 : rank_before y x = false) :
    rank_before z x = false := by
  unfold rank_before at *
  rw [decide_eq_false_iff_not] at h1 h2
  rw [decide_eq_false_iff_not]
  push_neg at h1 h2
  obtain ⟨h1a, h1b⟩ := h1
  obtain ⟨h2a, h2b⟩ := h2
  push_neg
  constructor
  · omega
  · intro hzx
    have hzy : z.correct_answers = y.correct_answers := by omega
    have hyx : y.correct_answers = x.correct_answers := by omega
    have q1 := h1b hzy
    have q2 := h2b hyx
    linarith

theorem rankInsert_perm (x : ChannelUserRow) (l : List ChannelUserRow) :
    (rankInsert x l).Perm (x :: l) := by
  induction l with
  | nil => exact List.Perm.refl _
  | cons y t ih =>
      unfold rankInsert
      by_cases hc : rank_before y x = true
      · rw [if_pos hc]
        exact (ih.cons y).trans (List.Perm.swap x y t)
      · rw [if_neg hc]

theorem rankSort_perm (l : List ChannelUserRow) : (rankSort l).Perm l := by
  induction l with
  | nil => exact List.Perm.refl _
  | cons x t ih =>
      unfold rankSort
      exact (rankInsert_perm x (rankSort t)).trans (ih.cons x)

theorem rankInsert_pairwise (x : ChannelUserRow) (l : List ChannelUserRow)
    (hl : l.Pairwise (fun a b => rank_before b a = false)) :
    (rankInsert x l).Pairwise (fun a b => rank_before b a = false) := by
  induction l with
  | nil => simp [rankInsert]
  | cons y t ih =>
      rw [List.pairwise_cons] at hl
      obtain ⟨hy, ht⟩ := hl
      unfold rankInsert
      by_cases hc : rank_before y x = true
      · rw [if_pos hc]
        rw [List.pairwise_cons]
        refine ⟨?_, ih ht⟩
        intro z hz
        have hz' : z ∈ x :: t := (rankInsert_perm x t).mem_iff.mp hz
        rcases List.mem_cons.mp hz' with rfl | hzt
        · exact rank_before_asymm y z hc
        · exact hy z hzt
      · rw [if_neg hc]
        have hcf : rank_before y x = false := Bool.of_not_eq_true hc
        rw [List.pairwise_cons]
        refine ⟨?_, List.pairwise_cons.mpr ⟨hy, ht⟩⟩
        intro z hz
        rcases List.mem_cons.mp hz with rfl | hzt
        · exact hcf
        · exact rank_before_trans_neg x y z (hy z hzt) hcf

theorem rankSort_pairwise (l : List ChannelUserRow) :
    (rankSort l).Pairwise (fun a b => rank_before b a = false) := by
  induction l with
  | nil => simp [rankSort]
  | cons x t ih => exact rankInsert_pairwise x (rankSort t) ih

theorem findUserRank_none (uid : Nat) (l : List ChannelUserRow)
    (h : ∀ r ∈ l, r.user_id ≠ uid) : findUserRank uid l = none := by
  induction l with
  | nil => rfl
  | cons r t ih =>
      unfold findUserRank
      rw [if_neg (h r (List.mem_cons_self r t))]
      rw [ih fun r' hr' => h r' (List.mem_cons_of_mem r hr')]
      rfl

theorem findUserRank_found (uid : Nat) (l : List ChannelUserRow)
    (h : ∃ r ∈ l, r.user_id = uid) :
    ∃ k r, findUserRank uid l = some (k + 1) ∧ l[k]? = some r ∧ r.user_id = uid ∧
      ∀ j, j < k → ∀ r', l[j]? = some r' → r'.user_id ≠ uid := by
  induction l with
  | nil =>
      obtain ⟨r, hr, _⟩ := h
      simp at hr
  | cons a t ih =>
      by_cases ha : a.user_id = uid
      · refine ⟨0, a, ?_, by simp, ha, ?_⟩
        · unfold findUserRank
          rw [if_pos ha]
        · intro j hj
          exact absurd hj (Nat.not_lt_zero j)
      · have h' : ∃ r ∈ t, r.user_id = uid := by
          obtain ⟨r, hr, hru⟩ := h
          rcases List.mem_cons.mp hr with rfl | hrt
          · exact absurd hru ha
          · exact ⟨r, hrt, hru⟩
        obtain ⟨k, r, hfind, hget, hru, hprev⟩ := ih h'
        refine ⟨k + 1, r, ?_, by simpa using hget, hru, ?_⟩
        · unfold findUserRank
          rw [if_neg ha, hfind]
          rfl
        · intro j hj r' hget'
          cases j with
          | zero =>
              have : a = r' := by simpa using hget'
              rw [← this]
              exact ha
          | succ j' =>
              have hj' : t[j']? = some r' := by simpa using hget'
              exact hprev j' (by omega) r' hj'

/-- **C6, counterexample**: two storage iteration orders of the *same* two
rows (equal `correct_answers` and equal accuracy) assign user 2 different
ranks — the query has no deterministic tie-break beyond
`(correct_answers desc, accuracy desc)`. -/
theorem rank_tie_break_counterexample :
    ([⟨1, 2, 1⟩, ⟨2, 2, 1⟩] : List ChannelUserRow).Perm [⟨2, 2, 1⟩, ⟨1, 2, 1⟩] ∧
    get_channel_user_rank [⟨1, 2, 1⟩, ⟨2, 2, 1⟩] 2 = some 2 ∧
    get_channel_user_rank [⟨2, 2, 1⟩, ⟨1, 2, 1⟩] 2 = some 1 := by
  refine ⟨List.Perm.swap _ _ _, ?_, ?_⟩ <;>
    norm_num [get_channel_user_rank, eligibleRows, rankSort, rankInsert, rank_before,
      accuracy, List.filter, findUserRank]

/-- **C6, amended**: `rank` returns `none` exactly for users with no
positive-attempt row; for a user with such a row it returns the 1-based
position of the user's first row in the ranked list, where the ranked list
is a permutation of the `total_questions > 0` rows that is sorted by
`(correct_answers desc, accuracy desc)` — ties are left in storage
iteration order, with no further deterministic tie-break. -/
theorem rank_query_spec (rows : List ChannelUserRow) (uidA uidB : Nat)
    (hA : ∀ r ∈ rows, r.user_id = uidA → r.total_questions = 0)
    (hB : ∃ r ∈ rows, r.user_id = uidB ∧ 0 < r.total_questions) :
    get_channel_user_rank rows uidA = none ∧
    (∃ k r, get_channel_user_rank rows uidB = some (k + 1) ∧
      (rankSort (eligibleRows rows))[k]? = some r ∧ r.user_id = uidB ∧
      ∀ j, j < k → ∀ r', (rankSort (eligibleRows rows))[j]? = some r' →
        r'.user_id ≠ uidB) ∧
    (rankSort (eligibleRows rows)).Perm (eligibleRows rows) ∧
    (rankSort (eligibleRows rows)).Pairwise (fun a b => rank_before b a = false) := by
  refine ⟨?_, ?_, rankSort_perm _, rankSort_pairwise _⟩
  · unfold get_channel_user_rank
    apply findUserRank_none
    intro r hr heq
    have hr' : r ∈ eligibleRows rows := (rankSort_perm _).mem_iff.mp hr
    have hmem : r ∈ rows := (List.mem_filter.mp hr').1
    have htq : 0 < r.total_questions := by
      have := (List.mem_filter.mp hr').2
      simpa using this
    have := hA r hmem heq
    omega
  · obtain ⟨r, hr, hru, htq⟩ := hB
    have hmem : r ∈ eligibleRows rows := List.mem_filter.mpr ⟨hr, by simpa using htq⟩
    have hmem' : r ∈ rankSort (eligibleRows rows) := (rankSort_perm _).mem_iff.mpr hmem
    exact findUserRank_found uidB _ ⟨r, hmem', hru⟩

/-- Witness for the amended C6: user 9 has only a zero-attempt row, user 1
has a positive row. -/
theorem rank_query_spec_witness :
    get_channel_user_rank [⟨9, 0, 0⟩, ⟨1, 2, 1⟩, ⟨2, 3, 3⟩] 9 = none ∧
    (∃ k r, get_channel_user_rank [⟨9, 0, 0⟩, ⟨1, 2, 1⟩, ⟨2, 3, 3⟩] 1 = some (k + 1) ∧
      (rankSort (eligibleRows [⟨9, 0, 0⟩, ⟨1, 2, 1⟩, ⟨2, 3, 3⟩]))[k]? = some r ∧
      r.user_id = 1 ∧
      ∀ j, j < k → ∀ r',
        (rankSort (eligibleRows [⟨9, 0, 0⟩, ⟨1, 2, 1⟩, ⟨2, 3, 3⟩]))[j]? = some r' →
        r'.user_id ≠ 1) ∧
    (rankSort (eligibleRows [⟨9, 0, 0⟩, ⟨1, 2, 1⟩, ⟨2, 3, 3⟩])).Perm
      (eligibleRows [⟨9, 0, 0⟩, ⟨1, 2, 1⟩, ⟨2, 3, 3⟩]) ∧
    (rankSort (eligibleRows [⟨9, 0, 0⟩, ⟨1, 2, 1⟩, ⟨2, 3, 3⟩])).Pairwise
      (fun a b => rank_before b a = false) :=
  rank_query_spec [⟨9, 0, 0⟩, ⟨1, 2, 1⟩, ⟨2, 3, 3⟩] 9 1
    (by decide) ⟨⟨1, 2, 1⟩, by simp, rfl, by decide⟩

end TwitchBot
